import Mathlib

/-!
Shallow embedding of `src/backend/src/training/investment_analytics.py`
(class `InvestmentAnalytics`) over exact rational arithmetic.  Python
floats are modelled by `ℚ`; Python dicts returned by each method become
Lean structures; a dict key that is absent in some branch becomes an
`Option` field (`none` = key absent).  Integer year counts are `ℕ`.
-/

namespace InvestmentAnalytics

/-- `self.default_appreciation_rate = 0.04` -/
def default_appreciation_rate : ℚ := 4 / 100

/-- `self.default_vacancy_rate = 0.05` -/
def default_vacancy_rate : ℚ := 5 / 100

/-- `self.default_maintenance_rate = 0.01` -/
def default_maintenance_rate : ℚ := 1 / 100

/-- Return value of `calculate_roi`. -/
structure RoiResult where
  roi_percentage : ℚ
  net_profit : ℚ
  future_property_value : ℚ
  total_rental_income : ℚ
  total_expenses : ℚ
  deriving Repr, DecidableEq

/-- `InvestmentAnalytics.calculate_roi` (lines 14–37). -/
def calculate_roi (purchase_price annual_rental_income operating_expenses : ℚ)
    (holding_period_years : ℕ) : RoiResult :=
  let total_rental_income := annual_rental_income * holding_period_years
  let total_expenses := operating_expenses * holding_period_years
  let future_value := purchase_price * (1 + default_appreciation_rate) ^ holding_period_years
  let net_profit := (future_value - purchase_price) + (total_rental_income - total_expenses)
  let roi := (net_profit / purchase_price) * 100
  { roi_percentage := roi
    net_profit := net_profit
    future_property_value := future_value
    total_rental_income := total_rental_income
    total_expenses := total_expenses }

/-- Return value of `calculate_rental_yield`. -/
structure RentalYieldResult where
  gross_yield_percentage : ℚ
  net_yield_percentage : ℚ
  annual_rental_income : ℚ
  annual_expenses : ℚ
  net_annual_income : ℚ
  deriving Repr, DecidableEq

/-- `InvestmentAnalytics.calculate_rental_yield` (lines 39–57). -/
def calculate_rental_yield (purchase_price annual_rental_income : ℚ) : RentalYieldResult :=
  let gross_yield := (annual_rental_income / purchase_price) * 100
  let annual_expenses := purchase_price * (default_maintenance_rate + default_vacancy_rate)
  let net_rental_income := annual_rental_income - annual_expenses
  let net_yield := (net_rental_income / purchase_price) * 100
  { gross_yield_percentage := gross_yield
    net_yield_percentage := net_yield
    annual_rental_income := annual_rental_income
    annual_expenses := annual_expenses
    net_annual_income := net_rental_income }

/-- One entry of the appreciation schedule. -/
structure AppreciationEntry where
  year : ℕ
  property_value : ℚ
  appreciation_amount : ℚ
  appreciation_percentage : ℚ
  deriving Repr, DecidableEq

/-- Return value of `calculate_appreciation`. -/
structure AppreciationResult where
  appreciation_schedule : List AppreciationEntry
  final_value : ℚ
  total_appreciation : ℚ
  total_appreciation_percentage : ℚ
  deriving Repr, DecidableEq

/-- The `for year in range(1, years + 1)` loop of `calculate_appreciation`:
given the loop counter `year`, the running `current_value` and the number
of remaining iterations, it returns the entries appended by the remaining
iterations together with the final `current_value`. -/
def appreciationLoop (purchase_price appreciation_rate : ℚ) :
    ℕ → ℚ → ℕ → List AppreciationEntry × ℚ
  | _, current_value, 0 => ([], current_value)
  | year, current_value, Nat.succ remaining =>
    let v := current_value * (1 + appreciation_rate)
    let appreciation_amount := v - purchase_price
    let appreciation_percentage := (appreciation_amount / purchase_price) * 100
    let rest := appreciationLoop purchase_price appreciation_rate (year + 1) v remaining
    ({ year := year
       property_value := v
       appreciation_amount := appreciation_amount
       appreciation_percentage := appreciation_percentage } :: rest.1, rest.2)

/-- `InvestmentAnalytics.calculate_appreciation` (lines 59–87).
`appreciation_rate = none` models the Python default `None`. -/
def calculate_appreciation (purchase_price : ℚ) (years : ℕ)
    (appreciation_rate : Option ℚ) : AppreciationResult :=
  let rate := appreciation_rate.getD default_appreciation_rate
  let loop := appreciationLoop purchase_price rate 1 purchase_price years
  { appreciation_schedule := loop.1
    final_value := loop.2
    total_appreciation := loop.2 - purchase_price
    total_appreciation_percentage := ((loop.2 - purchase_price) / purchase_price) * 100 }

/-- Return value of `calculate_cash_flow`. -/
structure CashFlowResult where
  annual_cash_flow : ℚ
  monthly_cash_flow : ℚ
  effective_rental_income : ℚ
  total_annual_expenses : ℚ
  cash_on_cash_return : ℚ
  deriving Repr, DecidableEq

/-- `InvestmentAnalytics.calculate_cash_flow` (lines 89–114); the Python
defaults for `mortgage_payment`, `property_tax`, `insurance` and
`maintenance` are all `0`, and a `maintenance` equal to `0` is replaced by
`purchase_price * default_maintenance_rate` (the zero sentinel). -/
def calculate_cash_flow (purchase_price annual_rental_income : ℚ)
    (mortgage_payment property_tax insurance maintenance : ℚ) : CashFlowResult :=
  let maintenance :=
    if maintenance = 0 then purchase_price * default_maintenance_rate else maintenance
  let total_expenses := mortgage_payment + property_tax + insurance + maintenance
  let effective_rental_income := annual_rental_income * (1 - default_vacancy_rate)
  let annual_cash_flow := effective_rental_income - total_expenses
  let monthly_cash_flow := annual_cash_flow / 12
  { annual_cash_flow := annual_cash_flow
    monthly_cash_flow := monthly_cash_flow
    effective_rental_income := effective_rental_income
    total_annual_expenses := total_expenses
    cash_on_cash_return := (annual_cash_flow / purchase_price) * 100 }

/-- Return value of `calculate_cap_rate`. -/
structure CapRateResult where
  cap_rate_percentage : ℚ
  net_operating_income : ℚ
  annual_rental_income : ℚ
  operating_expenses : ℚ
  deriving Repr, DecidableEq

/-- `InvestmentAnalytics.calculate_cap_rate` (lines 116–133);
`operating_expenses = none` models the Python default `None`. -/
def calculate_cap_rate (purchase_price annual_rental_income : ℚ)
    (operating_expenses : Option ℚ) : CapRateResult :=
  let oe := operating_expenses.getD
    (purchase_price * (default_maintenance_rate + default_vacancy_rate))
  let net_operating_income := annual_rental_income - oe
  let cap_rate := (net_operating_income / purchase_price) * 100
  { cap_rate_percentage := cap_rate
    net_operating_income := net_operating_income
    annual_rental_income := annual_rental_income
    operating_expenses := oe }

/-- Round a rational to the nearest integer, ties to even — the rounding
used by Python `format(x, '.1f')` (after scaling by 10). -/
def roundHalfEven (q : ℚ) : ℤ :=
  let f := Int.floor q
  let frac := q - f
  if frac < 1 / 2 then f
  else if 1 / 2 < frac then f + 1
  else if f % 2 = 0 then f else f + 1

/-- Render a rational with exactly one digit after the decimal point,
rounding half to even: the embedding of the Python format spec `:.1f`. -/
def formatOneDec (q : ℚ) : String :=
  let tenths := roundHalfEven (q * 10)
  let sign := if tenths < 0 then "-" else ""
  let n := tenths.natAbs
  sign ++ toString (n / 10) ++ "." ++ toString (n % 10)

/-- Return value of `calculate_break_even_point`.  In the Python source the
negative-cash-flow branch returns a dict with only the keys
`break_even_years` and `message`; the key `annual_net_income` is present
only in the positive branch, hence it is an `Option` here
(`none` = key absent from the returned dict). -/
structure BreakEvenResult where
  break_even_years : Option ℚ
  annual_net_income : Option ℚ
  message : String
  deriving Repr, DecidableEq

/-- `InvestmentAnalytics.calculate_break_even_point` (lines 135–154). -/
def calculate_break_even_point (purchase_price annual_rental_income annual_expenses : ℚ) :
    BreakEvenResult :=
  let annual_net_income := annual_rental_income - annual_expenses
  if annual_net_income ≤ 0 then
    { break_even_years := none
      annual_net_income := none
      message := "Property generates negative cash flow" }
  else
    let break_even_years := purchase_price / annual_net_income
    { break_even_years := some break_even_years
      annual_net_income := some annual_net_income
      message := "Break-even in " ++ formatOneDec break_even_years ++ " years" }

/-- The `property_data` dict accepted by `comprehensive_analysis`:
`none` models an absent key (looked up with `.get(key, default)`). -/
structure PropertyData where
  purchase_price : ℚ
  annual_rental_income : Option ℚ
  operating_expenses : Option ℚ
  holding_period_years : Option ℕ
  deriving Repr, DecidableEq

/-- Return value of `comprehensive_analysis`. -/
structure AnalysisResult where
  property_price : ℚ
  roi : RoiResult
  rental_yield : RentalYieldResult
  appreciation : AppreciationResult
  cash_flow : CashFlowResult
  cap_rate : CapRateResult
  break_even : BreakEvenResult
  deriving Repr, DecidableEq

/-- `InvestmentAnalytics.comprehensive_analysis` (lines 156–183). -/
def comprehensive_analysis (property_data : PropertyData) : AnalysisResult :=
  let purchase_price := property_data.purchase_price
  let annual_rental_income :=
    property_data.annual_rental_income.getD (purchase_price * (5 / 100))
  let operating_expenses :=
    property_data.operating_expenses.getD (purchase_price * (2 / 100))
  let holding_period := property_data.holding_period_years.getD 5
  { property_price := purchase_price
    roi := calculate_roi purchase_price annual_rental_income operating_expenses holding_period
    rental_yield := calculate_rental_yield purchase_price annual_rental_income
    appreciation := calculate_appreciation purchase_price holding_period none
    cash_flow := calculate_cash_flow purchase_price annual_rental_income 0 0 0 0
    cap_rate := calculate_cap_rate purchase_price annual_rental_income none
    break_even := calculate_break_even_point purchase_price annual_rental_income
      operating_expenses }

/-- Return value of `investment_recommendation`. -/
structure Recommendation where
  score : ℕ
  overall_recommendation : String
  detailed_recommendations : List String
  deriving Repr, DecidableEq

/-- ROI block of `investment_recommendation`: points added to `score`
together with the message appended to `recommendations`. -/
def roiEval (roi : ℚ) : ℕ × List String :=
  if roi > 50 then (3, ["Excellent ROI potential"])
  else if roi > 30 then (2, ["Good ROI potential"])
  else if roi > 15 then (1, ["Moderate ROI potential"])
  else (0, ["Low ROI - consider other options"])

/-- Rental-yield block of `investment_recommendation`. -/
def yieldEval (rental_yield : ℚ) : ℕ × List String :=
  if rental_yield > 6 then (3, ["Strong rental yield"])
  else if rental_yield > 4 then (2, ["Acceptable rental yield"])
  else (0, ["Low rental yield"])

/-- Cap-rate block of `investment_recommendation`; no message is appended
when `cap_rate ≤ 5`. -/
def capRateEval (cap_rate : ℚ) : ℕ × List String :=
  if cap_rate > 8 then (2, ["Attractive cap rate"])
  else if cap_rate > 5 then (1, ["Fair cap rate"])
  else (0, [])

/-- Cash-flow block of `investment_recommendation`. -/
def cashFlowEval (cash_flow : ℚ) : ℕ × List String :=
  if cash_flow > 0 then (2, ["Positive cash flow"])
  else (0, ["Negative cash flow - requires capital"])

/-- Final score-to-verdict bands of `investment_recommendation`. -/
def overallOfScore (score : ℕ) : String :=
  if score ≥ 8 then "STRONG BUY - Excellent investment opportunity"
  else if score ≥ 5 then "BUY - Good investment potential"
  else if score ≥ 3 then "HOLD - Consider carefully"
  else "AVOID - Poor investment metrics"

/-- `InvestmentAnalytics.investment_recommendation` (lines 185–249): the
four sequential `score +=` / `recommendations.append` blocks, then the
band dispatch on the total score. -/
def investment_recommendation (analysis : AnalysisResult) : Recommendation :=
  let roi := analysis.roi.roi_percentage
  let rental_yield := analysis.rental_yield.net_yield_percentage
  let cap_rate := analysis.cap_rate.cap_rate_percentage
  let cash_flow := analysis.cash_flow.annual_cash_flow
  let e1 := roiEval roi
  let e2 := yieldEval rental_yield
  let e3 := capRateEval cap_rate
  let e4 := cashFlowEval cash_flow
  let score := e1.1 + e2.1 + e3.1 + e4.1
  { score := score
    overall_recommendation := overallOfScore score
    detailed_recommendations := e1.2 ++ e2.2 ++ e3.2 ++ e4.2 }

/-- Reading of the spec's `x ≈ v` where `v` is displayed with two decimal
digits: `x` rounds to the displayed value, i.e. lies within half of the
last displayed digit. -/
def approxTwoDec (x v : ℚ) : Prop := |x - v| ≤ 5 / 1000

instance (x v : ℚ) : Decidable (approxTwoDec x v) := by
  unfold approxTwoDec; infer_instance

/-- Default entry handed to `List.getD` when indexing an appreciation
schedule in specification statements. -/
def entry0 : AppreciationEntry := { year := 0, property_value := 0, appreciation_amount := 0, appreciation_percentage := 0 }

/-- An `AnalysisResult` carrying exactly the four metrics that
`investment_recommendation` reads; the remaining fields are immaterial to
it and set to zero values. -/
def mkAnalysisOf (roi rental_yield cap_rate cash_flow : ℚ) : AnalysisResult :=
  { property_price := 0
    roi := { roi_percentage := roi, net_profit := 0, future_property_value := 0,
             total_rental_income := 0, total_expenses := 0 }
    rental_yield := { gross_yield_percentage := 0, net_yield_percentage := rental_yield,
                      annual_rental_income := 0, annual_expenses := 0, net_annual_income := 0 }
    appreciation := { appreciation_schedule := [], final_value := 0,
                      total_appreciation := 0, total_appreciation_percentage := 0 }
    cash_flow := { annual_cash_flow := cash_flow, monthly_cash_flow := 0,
                   effective_rental_income := 0, total_annual_expenses := 0,
                   cash_on_cash_return := 0 }
    cap_rate := { cap_rate_percentage := cap_rate, net_operating_income := 0,
                  annual_rental_income := 0, operating_expenses := 0 }
    break_even := { break_even_years := none, annual_net_income := none, message := "" } }

/-- C2: `calculate_break_even_point` computes
`annual_net_income = annual_rental_income - annual_expenses`; the result
has `break_even_years = null` exactly when `annual_net_income ≤ 0`, with
the message "Property generates negative cash flow" in that case (a
reported condition, not an error); otherwise
`break_even_years = purchase_price / annual_net_income` and the message
shows it formatted to one decimal place. -/
theorem break_even_sentinel_law :
    ∀ purchase_price annual_rental_income annual_expenses : ℚ,
    0 < purchase_price →
    ((annual_rental_income - annual_expenses ≤ 0 ↔
      (calculate_break_even_point purchase_price annual_rental_income
        annual_expenses).break_even_years = none) ∧
     (annual_rental_income - annual_expenses ≤ 0 →
      (calculate_break_even_point purchase_price annual_rental_income
        annual_expenses).message = "Property generates negative cash flow") ∧
     (0 < annual_rental_income - annual_expenses →
      (calculate_break_even_point purchase_price annual_rental_income
          annual_expenses).break_even_years =
        some (purchase_price / (annual_rental_income - annual_expenses)) ∧
      (calculate_break_even_point purchase_price annual_rental_income
          annual_expenses).message =
        "Break-even in " ++
          formatOneDec (purchase_price / (annual_rental_income - annual_expenses)) ++
          " years")) := by
  intro pp ari ae _
  by_cases h : ari - ae ≤ 0
  · refine ⟨by simp [calculate_break_even_point, h], fun _ => by simp [calculate_break_even_point, h],
      fun h' => absurd h' (not_lt.mpr h)⟩
  · refine ⟨by simp [calculate_break_even_point, h], fun h' => absurd h' h,
      fun _ => ⟨by simp [calculate_break_even_point, h], by simp [calculate_break_even_point, h]⟩⟩

/-- Witness for C2 at scenario 3 and a positive-branch input. -/
theorem break_even_sentinel_law_witness :
    0 < (500000 : ℚ) ∧
    (((5000 : ℚ) - 8000 ≤ 0 ↔
      (calculate_break_even_point 500000 5000 8000).break_even_years = none) ∧
     ((5000 : ℚ) - 8000 ≤ 0 →
      (calculate_break_even_point 500000 5000 8000).message =
        "Property generates negative cash flow") ∧
     (0 < (5000 : ℚ) - 8000 →
      (calculate_break_even_point 500000 5000 8000).break_even_years =
        some (500000 / ((5000 : ℚ) - 8000)) ∧
      (calculate_break_even_point 500000 5000 8000).message =
        "Break-even in " ++ formatOneDec (500000 / ((5000 : ℚ) - 8000)) ++ " years")) :=
  ⟨by norm_num, break_even_sentinel_law 500000 5000 8000 (by norm_num)⟩

/-- C7: `calculate_rental_yield` returns
`gross_yield_percentage = (annual_rental_income / purchase_price) * 100`,
`annual_expenses = purchase_price * (maintenance_rate + vacancy_rate)`,
`net_annual_income = annual_rental_income - annual_expenses` (possibly
negative, surfaced as-is), and
`net_yield_percentage = (net_annual_income / purchase_price) * 100`; for
`purchase_price = 500000`, `annual_rental_income = 30000` the results are
`annual_expenses = 30000`, `net_annual_income = 0`,
`net_yield_percentage = 0`, `gross_yield_percentage = 6`. -/
theorem rental_yield_spec :
    (∀ purchase_price annual_rental_income : ℚ,
      0 < purchase_price → 0 ≤ annual_rental_income →
      (calculate_rental_yield purchase_price annual_rental_income).gross_yield_percentage =
          (annual_rental_income / purchase_price) * 100 ∧
      (calculate_rental_yield purchase_price annual_rental_income).annual_expenses =
          purchase_price * (default_maintenance_rate + default_vacancy_rate) ∧
      (calculate_rental_yield purchase_price annual_rental_income).net_annual_income =
          annual_rental_income -
            (calculate_rental_yield purchase_price annual_rental_income).annual_expenses ∧
      (calculate_rental_yield purchase_price annual_rental_income).net_yield_percentage =
          ((calculate_rental_yield purchase_price annual_rental_income).net_annual_income /
            purchase_price) * 100) ∧
    ((calculate_rental_yield 500000 30000).annual_expenses = 30000 ∧
     (calculate_rental_yield 500000 30000).net_annual_income = 0 ∧
     (calculate_rental_yield 500000 30000).net_yield_percentage = 0 ∧
     (calculate_rental_yield 500000 30000).gross_yield_percentage = 6) := by
  constructor
  · intro pp ari _ _
    refine ⟨rfl, rfl, rfl, rfl⟩
  · refine ⟨?_, ?_, ?_, ?_⟩ <;>
      norm_num [calculate_rental_yield, default_maintenance_rate, default_vacancy_rate]

/-- Witness for C7 at scenario 2. -/
theorem rental_yield_spec_witness :
    0 < (500000 : ℚ) ∧ 0 ≤ (30000 : ℚ) ∧
    ((calculate_rental_yield 500000 30000).gross_yield_percentage =
        ((30000 : ℚ) / 500000) * 100 ∧
     (calculate_rental_yield 500000 30000).annual_expenses =
        (500000 : ℚ) * (default_maintenance_rate + default_vacancy_rate) ∧
     (calculate_rental_yield 500000 30000).net_annual_income =
        30000 - (calculate_rental_yield 500000 30000).annual_expenses ∧
     (calculate_rental_yield 500000 30000).net_yield_percentage =
        ((calculate_rental_yield 500000 30000).net_annual_income / 500000) * 100) :=
  ⟨by norm_num, by norm_num,
    rental_yield_spec.1 500000 30000 (by norm_num) (by norm_num)⟩

/-- C8: calling `calculate_cash_flow` with `maintenance = 0` (explicitly
or by omission, the Python default being `0`) produces exactly the same
result as calling it with `maintenance = purchase_price *
default_maintenance_rate`: the zero is an overloaded sentinel, so an
explicitly zero maintenance is indistinguishable from the default. -/
theorem cash_flow_zero_sentinel :
    ∀ purchase_price annual_rental_income mortgage_payment property_tax insurance : ℚ,
    0 < purchase_price →
    calculate_cash_flow purchase_price annual_rental_income
        mortgage_payment property_tax insurance 0 =
      calculate_cash_flow purchase_price annual_rental_income
        mortgage_payment property_tax insurance
        (purchase_price * default_maintenance_rate) := by
  intro pp ari mp pt ins hpp
  have h : pp * default_maintenance_rate ≠ 0 := by
    simp only [default_maintenance_rate]
    positivity
  simp [calculate_cash_flow, h]

/-- Witness for C8 at the repository's example property. -/
theorem cash_flow_zero_sentinel_witness :
    0 < (500000 : ℚ) ∧
    calculate_cash_flow 500000 30000 0 0 0 0 =
      calculate_cash_flow 500000 30000 0 0 0 (500000 * default_maintenance_rate) :=
  ⟨by norm_num, cash_flow_zero_sentinel 500000 30000 0 0 0 (by norm_num)⟩

/-- C1 counterexample: at `purchase_price = 500000`,
`annual_rental_income = 30000`, `operating_expenses = 8000`,
`holding_period_years = 5` the code returns
`future_property_value = 608326.4512`, which is not ≈ `608326.04`
(nor is `net_profit = 218326.4512` ≈ `218326.04`): the claimed
scenario values are off by `0.4112`. -/
theorem roi_scenario_counterexample :
    ¬ approxTwoDec (calculate_roi 500000 30000 8000 5).future_property_value
        (60832604 / 100) ∧
    (calculate_roi 500000 30000 8000 5).future_property_value = 6083264512 / 10000 ∧
    ¬ approxTwoDec (calculate_roi 500000 30000 8000 5).net_profit (21832604 / 100) ∧
    (calculate_roi 500000 30000 8000 5).net_profit = 2183264512 / 10000 := by
  refine ⟨?_, ?_, ?_, ?_⟩ <;>
    norm_num [approxTwoDec, calculate_roi, default_appreciation_rate, abs_le]

/-- C1 (amended): for every `purchase_price > 0`,
`holding_period_years ≥ 1`, `calculate_roi` returns
`future_property_value = purchase_price * (1 + appreciation_rate) ^
holding_period_years`, `total_rental_income = annual_rental_income *
holding_period_years`, `total_expenses = operating_expenses *
holding_period_years`, `net_profit = (future_property_value -
purchase_price) + (total_rental_income - total_expenses)` and
`roi_percentage = (net_profit / purchase_price) * 100`; and at the
scenario input the values are `future_property_value ≈ 608326.45`,
`total_rental_income = 150000`, `total_expenses = 40000`,
`net_profit ≈ 218326.45` and `roi_percentage ≈ 43.67`. -/
theorem roi_spec :
    (∀ (purchase_price annual_rental_income operating_expenses : ℚ)
       (holding_period_years : ℕ),
      0 < purchase_price → 1 ≤ holding_period_years →
      (calculate_roi purchase_price annual_rental_income operating_expenses
          holding_period_years).future_property_value =
        purchase_price * (1 + default_appreciation_rate) ^ holding_period_years ∧
      (calculate_roi purchase_price annual_rental_income operating_expenses
          holding_period_years).total_rental_income =
        annual_rental_income * holding_period_years ∧
      (calculate_roi purchase_price annual_rental_income operating_expenses
          holding_period_years).total_expenses =
        operating_expenses * holding_period_years ∧
      (calculate_roi purchase_price annual_rental_income operating_expenses
          holding_period_years).net_profit =
        ((calculate_roi purchase_price annual_rental_income operating_expenses
            holding_period_years).future_property_value - purchase_price) +
        ((calculate_roi purchase_price annual_rental_income operating_expenses
            holding_period_years).total_rental_income -
         (calculate_roi purchase_price annual_rental_income operating_expenses
            holding_period_years).total_expenses) ∧
      (calculate_roi purchase_price annual_rental_income operating_expenses
          holding_period_years).roi_percentage =
        ((calculate_roi purchase_price annual_rental_income operating_expenses
            holding_period_years).net_profit / purchase_price) * 100) ∧
    (approxTwoDec (calculate_roi 500000 30000 8000 5).future_property_value
        (60832645 / 100) ∧
     (calculate_roi 500000 30000 8000 5).total_rental_income = 150000 ∧
     (calculate_roi 500000 30000 8000 5).total_expenses = 40000 ∧
     approxTwoDec (calculate_roi 500000 30000 8000 5).net_profit (21832645 / 100) ∧
     approxTwoDec (calculate_roi 500000 30000 8000 5).roi_percentage (4367 / 100)) := by
  constructor
  · intro pp ari oe hp _ _
    exact ⟨rfl, rfl, rfl, rfl, rfl⟩
  · refine ⟨?_, ?_, ?_, ?_, ?_⟩ <;>
      norm_num [approxTwoDec, calculate_roi, default_appreciation_rate, abs_le]

/-- Witness for C1 (amended) at scenario 1. -/
theorem roi_spec_witness :
    0 < (500000 : ℚ) ∧ 1 ≤ 5 ∧
    ((calculate_roi 500000 30000 8000 5).future_property_value =
        500000 * (1 + default_appreciation_rate) ^ 5 ∧
     (calculate_roi 500000 30000 8000 5).total_rental_income = 30000 * (5 : ℕ) ∧
     (calculate_roi 500000 30000 8000 5).total_expenses = 8000 * (5 : ℕ) ∧
     (calculate_roi 500000 30000 8000 5).net_profit =
        ((calculate_roi 500000 30000 8000 5).future_property_value - 500000) +
        ((calculate_roi 500000 30000 8000 5).total_rental_income -
         (calculate_roi 500000 30000 8000 5).total_expenses) ∧
     (calculate_roi 500000 30000 8000 5).roi_percentage =
        ((calculate_roi 500000 30000 8000 5).net_profit / 500000) * 100) :=
  ⟨by norm_num, by norm_num,
    roi_spec.1 500000 30000 8000 5 (by norm_num) (by norm_num)⟩

theorem roiEval_fst_le (roi : ℚ) : (roiEval roi).1 ≤ 3 := by
  unfold roiEval; split <;> [skip; split] <;> [norm_num; skip; skip] <;>
    [skip; split] <;> norm_num

theorem yieldEval_fst_le (rental_yield : ℚ) : (yieldEval rental_yield).1 ≤ 3 := by
  unfold yieldEval; split <;> [norm_num; split] <;> norm_num

theorem capRateEval_fst_le (cap_rate : ℚ) : (capRateEval cap_rate).1 ≤ 2 := by
  unfold capRateEval; split <;> [norm_num; split] <;> norm_num

theorem cashFlowEval_fst_le (cash_flow : ℚ) : (cashFlowEval cash_flow).1 ≤ 2 := by
  unfold cashFlowEval; split <;> norm_num

theorem roiEval_snd_len (roi : ℚ) : (roiEval roi).2.length = 1 := by
  unfold roiEval; split <;> [rfl; split] <;> [rfl; skip] <;> split <;> rfl

theorem yieldEval_snd_len (rental_yield : ℚ) : (yieldEval rental_yield).2.length = 1 := by
  unfold yieldEval; split <;> [rfl; split] <;> rfl

theorem cashFlowEval_snd_len (cash_flow : ℚ) : (cashFlowEval cash_flow).2.length = 1 := by
  unfold cashFlowEval; split <;> rfl

theorem capRateEval_snd_len (cap_rate : ℚ) :
    (capRateEval cap_rate).2.length = if 5 < cap_rate then 1 else 0 := by
  unfold capRateEval
  by_cases h8 : cap_rate > 8
  · rw [if_pos h8, if_pos (show 5 < cap_rate by linarith)]
    rfl
  · rw [if_neg h8]
    by_cases h5 : cap_rate > 5
    · rw [if_pos h5, if_pos h5]
      rfl
    · rw [if_neg h5, if_neg h5]
      rfl

/-- C3: for every `AnalysisResult`, `investment_recommendation` returns a
score with `0 ≤ score ≤ 10`, and the `detailed_recommendations` list has
exactly 3 or 4 entries, with 4 exactly when `cap_rate_percentage > 5`
(the ROI, rental-yield and cash-flow entries are always appended, the
cap-rate entry only in its two scoring tiers). -/
theorem recommendation_shape :
    ∀ a : AnalysisResult,
    (0 ≤ (investment_recommendation a).score ∧
     (investment_recommendation a).score ≤ 10) ∧
    ((investment_recommendation a).detailed_recommendations.length = 3 ∨
     (investment_recommendation a).detailed_recommendations.length = 4) ∧
    ((investment_recommendation a).detailed_recommendations.length = 4 ↔
      5 < a.cap_rate.cap_rate_percentage) := by
  intro a
  have hscore : (investment_recommendation a).score =
      (roiEval a.roi.roi_percentage).1 +
      (yieldEval a.rental_yield.net_yield_percentage).1 +
      (capRateEval a.cap_rate.cap_rate_percentage).1 +
      (cashFlowEval a.cash_flow.annual_cash_flow).1 := rfl
  have hlen : (investment_recommendation a).detailed_recommendations.length =
      (roiEval a.roi.roi_percentage).2.length +
      (yieldEval a.rental_yield.net_yield_percentage).2.length +
      (capRateEval a.cap_rate.cap_rate_percentage).2.length +
      (cashFlowEval a.cash_flow.annual_cash_flow).2.length := by
    simp [investment_recommendation, Nat.add_assoc]
  refine ⟨⟨Nat.zero_le _, ?_⟩, ?_, ?_⟩
  · rw [hscore]
    have h1 := roiEval_fst_le a.roi.roi_percentage
    have h2 := yieldEval_fst_le a.rental_yield.net_yield_percentage
    have h3 := capRateEval_fst_le a.cap_rate.cap_rate_percentage
    have h4 := cashFlowEval_fst_le a.cash_flow.annual_cash_flow
    omega
  · rw [hlen, roiEval_snd_len, yieldEval_snd_len, cashFlowEval_snd_len,
      capRateEval_snd_len]
    by_cases h : 5 < a.cap_rate.cap_rate_percentage
    · rw [if_pos h]; right; rfl
    · rw [if_neg h]; left; rfl
  · rw [hlen, roiEval_snd_len, yieldEval_snd_len, cashFlowEval_snd_len,
      capRateEval_snd_len]
    by_cases h : 5 < a.cap_rate.cap_rate_percentage
    · rw [if_pos h]; simp [h]
    · rw [if_neg h]; simp [h]

theorem overallOfScore_bands (s : ℕ) :
    (overallOfScore s = "STRONG BUY - Excellent investment opportunity" ↔ 8 ≤ s) ∧
    (overallOfScore s = "BUY - Good investment potential" ↔ 5 ≤ s ∧ s < 8) ∧
    (overallOfScore s = "HOLD - Consider carefully" ↔ 3 ≤ s ∧ s < 5) ∧
    (overallOfScore s = "AVOID - Poor investment metrics" ↔ s < 3) := by
  unfold overallOfScore
  by_cases h8 : s ≥ 8
  · rw [if_pos h8]
    refine ⟨by simp [h8], ?_, ?_, ?_⟩ <;> constructor <;> intro h <;>
      first | (exfalso; revert h; decide) | omega |
        (exfalso; omega) | (exact absurd h (by decide))
  · rw [if_neg h8]
    by_cases h5 : s ≥ 5
    · rw [if_pos h5]
      refine ⟨?_, by simp; omega, ?_, ?_⟩ <;> constructor <;> intro h <;>
        first | omega | (exact absurd h (by decide))
    · rw [if_neg h5]
      by_cases h3 : s ≥ 3
      · rw [if_pos h3]
        refine ⟨?_, ?_, by simp; omega, ?_⟩ <;> constructor <;> intro h <;>
          first | omega | (exact absurd h (by decide))
      · rw [if_neg h3]
        refine ⟨?_, ?_, ?_, by simp; omega⟩ <;> constructor <;> intro h <;>
          first | omega | (exact absurd h (by decide))

/-- C4: `investment_recommendation` maps the total score to the overall
verdict through non-overlapping bands evaluated high to low
(`score ≥ 8 → STRONG BUY`, `score ≥ 5 → BUY`, `score ≥ 3 → HOLD`, else
`AVOID`), and for any `AnalysisResult` with `roi_percentage = 43.67`,
`net_yield_percentage = 0`, `cap_rate_percentage = 4.4` and
`annual_cash_flow > 0` the score is `4` (2 + 0 + 0 + 2) and the verdict
is "HOLD - Consider carefully". -/
theorem recommendation_bands :
    ∀ a : AnalysisResult,
    (((investment_recommendation a).overall_recommendation =
        "STRONG BUY - Excellent investment opportunity" ↔
      8 ≤ (investment_recommendation a).score) ∧
     ((investment_recommendation a).overall_recommendation =
        "BUY - Good investment potential" ↔
      5 ≤ (investment_recommendation a).score ∧
        (investment_recommendation a).score < 8) ∧
     ((investment_recommendation a).overall_recommendation =
        "HOLD - Consider carefully" ↔
      3 ≤ (investment_recommendation a).score ∧
        (investment_recommendation a).score < 5) ∧
     ((investment_recommendation a).overall_recommendation =
        "AVOID - Poor investment metrics" ↔
      (investment_recommendation a).score < 3)) ∧
    (a.roi.roi_percentage = 4367 / 100 →
     a.rental_yield.net_yield_percentage = 0 →
     a.cap_rate.cap_rate_percentage = 44 / 10 →
     0 < a.cash_flow.annual_cash_flow →
     (investment_recommendation a).score = 4 ∧
     (investment_recommendation a).overall_recommendation =
       "HOLD - Consider carefully") := by
  intro a
  have hover : (investment_recommendation a).overall_recommendation =
      overallOfScore (investment_recommendation a).score := rfl
  constructor
  · rw [hover]
    exact overallOfScore_bands (investment_recommendation a).score
  · intro h1 h2 h3 h4
    have hscore : (investment_recommendation a).score = 4 := by
      have e1 : roiEval a.roi.roi_percentage = (2, ["Good ROI potential"]) := by
        rw [h1]; norm_num [roiEval]
      have e2 : yieldEval a.rental_yield.net_yield_percentage =
          (0, ["Low rental yield"]) := by
        rw [h2]; norm_num [yieldEval]
      have e3 : capRateEval a.cap_rate.cap_rate_percentage = (0, []) := by
        rw [h3]; norm_num [capRateEval]
      have e4 : cashFlowEval a.cash_flow.annual_cash_flow =
          (2, ["Positive cash flow"]) := by
        rw [cashFlowEval, if_pos h4]
      show (roiEval a.roi.roi_percentage).1 +
          (yieldEval a.rental_yield.net_yield_percentage).1 +
          (capRateEval a.cap_rate.cap_rate_percentage).1 +
          (cashFlowEval a.cash_flow.annual_cash_flow).1 = 4
      rw [e1, e2, e3, e4]
      rfl
    refine ⟨hscore, ?_⟩
    rw [hover, hscore]
    rfl

/-- Witness for C4 at a concrete `AnalysisResult` with the scenario-4
metrics. -/
theorem recommendation_bands_witness :
    ((mkAnalysisOf (4367 / 100) 0 (44 / 10) 1).roi.roi_percentage = 4367 / 100 ∧
     (mkAnalysisOf (4367 / 100) 0 (44 / 10) 1).rental_yield.net_yield_percentage = 0 ∧
     (mkAnalysisOf (4367 / 100) 0 (44 / 10) 1).cap_rate.cap_rate_percentage = 44 / 10 ∧
     0 < (mkAnalysisOf (4367 / 100) 0 (44 / 10) 1).cash_flow.annual_cash_flow) ∧
    (investment_recommendation (mkAnalysisOf (4367 / 100) 0 (44 / 10) 1)).score = 4 ∧
    (investment_recommendation
        (mkAnalysisOf (4367 / 100) 0 (44 / 10) 1)).overall_recommendation =
      "HOLD - Consider carefully" :=
  ⟨⟨rfl, rfl, rfl, by norm_num [mkAnalysisOf]⟩,
    (recommendation_bands (mkAnalysisOf (4367 / 100) 0 (44 / 10) 1)).2
      rfl rfl rfl (by norm_num [mkAnalysisOf])⟩

theorem appreciationLoop_spec (pp rate : ℚ) :
    ∀ (n year : ℕ) (current : ℚ),
      (appreciationLoop pp rate year current n).1.length = n ∧
      (appreciationLoop pp rate year current n).2 = current * (1 + rate) ^ n ∧
      (∀ k, k < n →
        (appreciationLoop pp rate year current n).1.getD k entry0 =
          { year := year + k
            property_value := current * (1 + rate) ^ (k + 1)
            appreciation_amount := current * (1 + rate) ^ (k + 1) - pp
            appreciation_percentage :=
              ((current * (1 + rate) ^ (k + 1) - pp) / pp) * 100 }) := by
  intro n
  induction n with
  | zero =>
    intro year current
    exact ⟨rfl, by simp [appreciationLoop], fun k hk => absurd hk (Nat.not_lt_zero k)⟩
  | succ m ih =>
    intro year current
    obtain ⟨ihlen, ihfin, ihget⟩ := ih (year + 1) (current * (1 + rate))
    refine ⟨?_, ?_, ?_⟩
    · simpa [appreciationLoop] using ihlen
    · have : (appreciationLoop pp rate year current (m + 1)).2 =
          (appreciationLoop pp rate (year + 1) (current * (1 + rate)) m).2 := rfl
      rw [this, ihfin]
      ring
    · intro k hk
      cases k with
      | zero =>
        show ({ year := year
                property_value := current * (1 + rate)
                appreciation_amount := current * (1 + rate) - pp
                appreciation_percentage :=
                  ((current * (1 + rate) - pp) / pp) * 100 } : AppreciationEntry) = _
        simp [AppreciationEntry.mk.injEq]
      | succ j =>
        have hj : j < m := Nat.lt_of_succ_lt_succ hk
        have hstep :
            (appreciationLoop pp rate year current (m + 1)).1.getD (j + 1) entry0 =
            (appreciationLoop pp rate (year + 1) (current * (1 + rate)) m).1.getD j
              entry0 := rfl
        rw [hstep, ihget j hj]
        have hy : year + 1 + j = year + (j + 1) := by omega
        have hv : current * (1 + rate) * (1 + rate) ^ (j + 1) =
            current * (1 + rate) ^ (j + 1 + 1) := by ring
        rw [hy, hv]

/-- C5: for `purchase_price > 0`, `years ≥ 1` and any appreciation rate,
`calculate_appreciation` returns a schedule of exactly `years` entries
with `year` fields `1..years` in order; the first entry's
`property_value` is `purchase_price * (1 + rate)`, each later entry's
`property_value` is the previous one's times `(1 + rate)`, the last
entry's `property_value` equals `final_value`, and every entry's
`appreciation_amount` is its `property_value - purchase_price` with
`appreciation_percentage = (appreciation_amount / purchase_price) * 100`. -/
theorem appreciation_schedule_spec :
    ∀ (pp : ℚ) (years : ℕ) (rate : ℚ), 0 < pp → 1 ≤ years →
    (calculate_appreciation pp years (some rate)).appreciation_schedule.length = years ∧
    (∀ k, k < years →
      ((calculate_appreciation pp years
          (some rate)).appreciation_schedule.getD k entry0).year = k + 1) ∧
    ((calculate_appreciation pp years
        (some rate)).appreciation_schedule.getD 0 entry0).property_value =
      pp * (1 + rate) ∧
    (∀ k, 1 ≤ k → k < years →
      ((calculate_appreciation pp years
          (some rate)).appreciation_schedule.getD k entry0).property_value =
        ((calculate_appreciation pp years
            (some rate)).appreciation_schedule.getD (k - 1) entry0).property_value *
          (1 + rate)) ∧
    ((calculate_appreciation pp years
        (some rate)).appreciation_schedule.getD (years - 1) entry0).property_value =
      (calculate_appreciation pp years (some rate)).final_value ∧
    (∀ k, k < years →
      ((calculate_appreciation pp years
          (some rate)).appreciation_schedule.getD k entry0).appreciation_amount =
        ((calculate_appreciation pp years
            (some rate)).appreciation_schedule.getD k entry0).property_value - pp ∧
      ((calculate_appreciation pp years
          (some rate)).appreciation_schedule.getD k entry0).appreciation_percentage =
        ((calculate_appreciation pp years
            (some rate)).appreciation_schedule.getD k entry0).appreciation_amount /
          pp * 100) := by
  intro pp years rate _ hyears
  obtain ⟨hlen, hfin, hget⟩ := appreciationLoop_spec pp rate years 1 pp
  have hsched : (calculate_appreciation pp years (some rate)).appreciation_schedule =
      (appreciationLoop pp rate 1 pp years).1 := rfl
  have hfinal : (calculate_appreciation pp years (some rate)).final_value =
      (appreciationLoop pp rate 1 pp years).2 := rfl
  refine ⟨by rw [hsched]; exact hlen, ?_, ?_, ?_, ?_, ?_⟩
  · intro k hk
    rw [hsched, hget k hk]
    show 1 + k = k + 1
    omega
  · rw [hsched, hget 0 (by omega)]
    show pp * (1 + rate) ^ (0 + 1) = pp * (1 + rate)
    ring
  · intro k hk1 hk
    have hk' : k - 1 < years := by omega
    rw [hsched, hget k hk, hget (k - 1) hk']
    have : k - 1 + 1 = k := by omega
    rw [this]
    show pp * (1 + rate) ^ (k + 1) = pp * (1 + rate) ^ k * (1 + rate)
    ring
  · rw [hsched, hfinal, hget (years - 1) (by omega), hfin]
    have : years - 1 + 1 = years := by omega
    rw [this]
  · intro k hk
    rw [hsched, hget k hk]
    exact ⟨rfl, by ring⟩

/-- Witness for C5 at `purchase_price = 500000`, `years = 3`,
`rate = 0.04`. -/
theorem appreciation_schedule_spec_witness :
    0 < (500000 : ℚ) ∧ 1 ≤ 3 ∧
    ((calculate_appreciation 500000 3 (some (4 / 100))).appreciation_schedule.length = 3 ∧
     (∀ k, k < 3 →
       ((calculate_appreciation 500000 3
           (some (4 / 100))).appreciation_schedule.getD k entry0).year = k + 1) ∧
     ((calculate_appreciation 500000 3
         (some (4 / 100))).appreciation_schedule.getD 0 entry0).property_value =
       500000 * (1 + 4 / 100) ∧
     (∀ k, 1 ≤ k → k < 3 →
       ((calculate_appreciation 500000 3
           (some (4 / 100))).appreciation_schedule.getD k entry0).property_value =
         ((calculate_appreciation 500000 3
             (some (4 / 100))).appreciation_schedule.getD (k - 1) entry0).property_value *
           (1 + 4 / 100)) ∧
     ((calculate_appreciation 500000 3
         (some (4 / 100))).appreciation_schedule.getD (3 - 1) entry0).property_value =
       (calculate_appreciation 500000 3 (some (4 / 100))).final_value ∧
     (∀ k, k < 3 →
       ((calculate_appreciation 500000 3
           (some (4 / 100))).appreciation_schedule.getD k entry0).appreciation_amount =
         ((calculate_appreciation 500000 3
             (some (4 / 100))).appreciation_schedule.getD k entry0).property_value -
           500000 ∧
       ((calculate_appreciation 500000 3
           (some (4 / 100))).appreciation_schedule.getD k entry0).appreciation_percentage =
         ((calculate_appreciation 500000 3
             (some (4 / 100))).appreciation_schedule.getD k entry0).appreciation_amount /
           500000 * 100)) :=
  ⟨by norm_num, by norm_num,
    appreciation_schedule_spec 500000 3 (4 / 100) (by norm_num) (by norm_num)⟩

/-- C6: `comprehensive_analysis` substitutes
`annual_rental_income = purchase_price * 0.05`,
`operating_expenses = purchase_price * 0.02` and
`holding_period_years = 5` for each key the caller omits, each default
independent of the others, and uses the caller-supplied values whenever
they are present. -/
theorem comprehensive_defaults :
    (∀ pd : PropertyData, 0 < pd.purchase_price → pd.annual_rental_income = none →
      comprehensive_analysis pd =
        comprehensive_analysis
          { pd with annual_rental_income := some (pd.purchase_price * (5 / 100)) }) ∧
    (∀ pd : PropertyData, 0 < pd.purchase_price → pd.operating_expenses = none →
      comprehensive_analysis pd =
        comprehensive_analysis
          { pd with operating_expenses := some (pd.purchase_price * (2 / 100)) }) ∧
    (∀ pd : PropertyData, 0 < pd.purchase_price → pd.holding_period_years = none →
      comprehensive_analysis pd =
        comprehensive_analysis { pd with holding_period_years := some 5 }) ∧
    (∀ (pp ari oe : ℚ) (hp : ℕ), 0 < pp →
      comprehensive_analysis
          { purchase_price := pp, annual_rental_income := some ari,
            operating_expenses := some oe, holding_period_years := some hp } =
        { property_price := pp
          roi := calculate_roi pp ari oe hp
          rental_yield := calculate_rental_yield pp ari
          appreciation := calculate_appreciation pp hp none
          cash_flow := calculate_cash_flow pp ari 0 0 0 0
          cap_rate := calculate_cap_rate pp ari none
          break_even := calculate_break_even_point pp ari oe }) := by
  refine ⟨?_, ?_, ?_, ?_⟩
  · intro pd _ h
    simp [comprehensive_analysis, h]
  · intro pd _ h
    simp [comprehensive_analysis, h]
  · intro pd _ h
    simp [comprehensive_analysis, h]
  · intro pp ari oe hp _
    rfl

/-- Witness for C6 at a record omitting `annual_rental_income`. -/
theorem comprehensive_defaults_witness :
    0 < (500000 : ℚ) ∧
    (⟨500000, none, some 8000, some 5⟩ : PropertyData).annual_rental_income = none ∧
    comprehensive_analysis ⟨500000, none, some 8000, some 5⟩ =
      comprehensive_analysis ⟨500000, some ((500000 : ℚ) * (5 / 100)), some 8000, some 5⟩ :=
  ⟨by norm_num, rfl,
    comprehensive_defaults.1 ⟨500000, none, some 8000, some 5⟩ (by norm_num) rfl⟩

/-- C9 counterexample: at `purchase_price = 500000`,
`annual_rental_income = 5000`, `annual_expenses = 8000` (scenario 3,
negative cash flow) the dict returned by `calculate_break_even_point`
does not contain the key `annual_net_income` (modelled as `none`),
although the claim says all three fields are always present. -/
theorem break_even_missing_field_counterexample :
    (calculate_break_even_point 500000 5000 8000).annual_net_income = none ∧
    (calculate_break_even_point 500000 5000 8000).break_even_years = none ∧
    (calculate_break_even_point 500000 5000 8000).message =
      "Property generates negative cash flow" := by
  refine ⟨?_, ?_, ?_⟩ <;> norm_num [calculate_break_even_point]

/-- C9 (amended): the `break_even` component of every
`comprehensive_analysis` result always carries `break_even_years`
(possibly null) and a nonempty `message`, but carries
`annual_net_income` exactly when the resolved
`annual_rental_income - operating_expenses` is positive — the
negative-cash-flow branch omits that key. -/
theorem break_even_component_fields :
    ∀ pd : PropertyData,
    ((comprehensive_analysis pd).break_even.annual_net_income.isSome ↔
      0 < pd.annual_rental_income.getD (pd.purchase_price * (5 / 100)) -
          pd.operating_expenses.getD (pd.purchase_price * (2 / 100))) ∧
    ((comprehensive_analysis pd).break_even.break_even_years.isSome ↔
      0 < pd.annual_rental_income.getD (pd.purchase_price * (5 / 100)) -
          pd.operating_expenses.getD (pd.purchase_price * (2 / 100))) ∧
    (comprehensive_analysis pd).break_even.message ≠ "" := by
  intro pd
  have hbe : (comprehensive_analysis pd).break_even =
      calculate_break_even_point pd.purchase_price
        (pd.annual_rental_income.getD (pd.purchase_price * (5 / 100)))
        (pd.operating_expenses.getD (pd.purchase_price * (2 / 100))) := rfl
  rw [hbe]
  set ari := pd.annual_rental_income.getD (pd.purchase_price * (5 / 100)) with hari
  set oe := pd.operating_expenses.getD (pd.purchase_price * (2 / 100)) with hoe
  by_cases h : ari - oe ≤ 0
  · refine ⟨?_, ?_, ?_⟩ <;> simp [calculate_break_even_point, h]
    · linarith
    · linarith
  · refine ⟨?_, ?_, ?_⟩ <;> simp [calculate_break_even_point, h]
    · linarith [lt_of_not_le h]
    · linarith [lt_of_not_le h]
    · intro heq
      have hlen := congrArg String.length heq
      rw [String.length_append, String.length_append] at hlen
      have h1 : ("Break-even in " : String).length = 14 := rfl
      have h2 : (" years" : String).length = 6 := rfl
      have h0 : ("" : String).length = 0 := rfl
      rw [h1, h2, h0] at hlen
      omega

/-- C10: the `cap_rate` and `cash_flow` components of
`comprehensive_analysis` do not depend on the caller-supplied
`operating_expenses` (neither do `property_price`, `rental_yield` and
`appreciation`): `cap_rate` is always computed with
`operating_expenses = purchase_price * (maintenance_rate + vacancy_rate)`
and `cash_flow` with `mortgage_payment = property_tax = insurance = 0`
and `maintenance = purchase_price * maintenance_rate`; the caller's
`operating_expenses` reaches only the `roi` and `break_even`
components. -/
theorem comprehensive_oe_independence :
    (∀ pd₁ pd₂ : PropertyData,
      pd₁.purchase_price = pd₂.purchase_price →
      pd₁.annual_rental_income = pd₂.annual_rental_income →
      pd₁.holding_period_years = pd₂.holding_period_years →
      (comprehensive_analysis pd₁).cap_rate = (comprehensive_analysis pd₂).cap_rate ∧
      (comprehensive_analysis pd₁).cash_flow = (comprehensive_analysis pd₂).cash_flow ∧
      (comprehensive_analysis pd₁).rental_yield =
        (comprehensive_analysis pd₂).rental_yield ∧
      (comprehensive_analysis pd₁).appreciation =
        (comprehensive_analysis pd₂).appreciation ∧
      (comprehensive_analysis pd₁).property_price =
        (comprehensive_analysis pd₂).property_price) ∧
    (∀ pd : PropertyData,
      (comprehensive_analysis pd).cap_rate =
        calculate_cap_rate pd.purchase_price
          (pd.annual_rental_income.getD (pd.purchase_price * (5 / 100)))
          (some (pd.purchase_price *
            (default_maintenance_rate + default_vacancy_rate))) ∧
      (comprehensive_analysis pd).cash_flow =
        calculate_cash_flow pd.purchase_price
          (pd.annual_rental_income.getD (pd.purchase_price * (5 / 100)))
          0 0 0 (pd.purchase_price * default_maintenance_rate)) := by
  constructor
  · intro pd₁ pd₂ hpp hari hhp
    refine ⟨?_, ?_, ?_, ?_, ?_⟩ <;> simp [comprehensive_analysis, hpp, hari, hhp]
  · intro pd
    constructor
    · rfl
    · show calculate_cash_flow pd.purchase_price
          (pd.annual_rental_income.getD (pd.purchase_price * (5 / 100))) 0 0 0 0 = _
      set pp := pd.purchase_price
      set ari := pd.annual_rental_income.getD (pp * (5 / 100))
      by_cases h : pp * default_maintenance_rate = 0
      · simp [calculate_cash_flow, h]
      · simp [calculate_cash_flow, h]

/-- Witness for C10: two inputs differing only in `operating_expenses`. -/
theorem comprehensive_oe_independence_witness :
    (⟨500000, some 30000, some 8000, some 5⟩ : PropertyData).purchase_price =
      (⟨500000, some 30000, some 999, some 5⟩ : PropertyData).purchase_price ∧
    (comprehensive_analysis ⟨500000, some 30000, some 8000, some 5⟩).cap_rate =
      (comprehensive_analysis ⟨500000, some 30000, some 999, some 5⟩).cap_rate ∧
    (comprehensive_analysis ⟨500000, some 30000, some 8000, some 5⟩).cash_flow =
      (comprehensive_analysis ⟨500000, some 30000, some 999, some 5⟩).cash_flow ∧
    (comprehensive_analysis ⟨500000, some 30000, some 8000, some 5⟩).rental_yield =
      (comprehensive_analysis ⟨500000, some 30000, some 999, some 5⟩).rental_yield ∧
    (comprehensive_analysis ⟨500000, some 30000, some 8000, some 5⟩).appreciation =
      (comprehensive_analysis ⟨500000, some 30000, some 999, some 5⟩).appreciation ∧
    (comprehensive_analysis ⟨500000, some 30000, some 8000, some 5⟩).property_price =
      (comprehensive_analysis ⟨500000, some 30000, some 999, some 5⟩).property_price :=
  ⟨rfl,
    comprehensive_oe_independence.1 ⟨500000, some 30000, some 8000, some 5⟩
      ⟨500000, some 30000, some 999, some 5⟩ rfl rfl rfl⟩

end InvestmentAnalytics
